import Mathlib

/-!
Verification of the uruflow coordination plane (Go sources under
internal/tcp, internal/agent/daemon, internal/logic, internal/storage)
against its natural-language specification.

Bytes are modelled as `Nat` (values kept below 256 by the operations that
produce them); byte strings are `List Nat`.  Go's fallible operations are
modelled with `Except`/`Option`; in-place mutation of structs becomes
explicit state passing.  `encoding/json` (Go standard library, outside the
repository) is treated as an abstract parse oracle passed as a parameter.
-/

namespace Uruflow

/-! Section: Frame codec: internal/tcp/protocol/protocol.go -/

def MagicByte1 : Nat := 0x55
def MagicByte2 : Nat := 0x46
def ProtoVersion : Nat := 0x01
def HeaderSize : Nat := 8
def MaxPayloadSize : Nat := 16 * 1024 * 1024

/-- Go `MessageType` is a `byte`; we model the tag as a `Nat`. -/
abbrev MessageType := Nat

def TypeAuth : MessageType := 0x01
def TypeAuthOK : MessageType := 0x02
def TypeAuthFail : MessageType := 0x03
def TypeMetrics : MessageType := 0x10
def TypeMetricsAck : MessageType := 0x11
def TypeCommand : MessageType := 0x20
def TypeCommandAck : MessageType := 0x21
def TypeCommandStart : MessageType := 0x22
def TypeCommandLog : MessageType := 0x23
def TypeCommandDone : MessageType := 0x24
def TypePing : MessageType := 0x30
def TypePong : MessageType := 0x31
def TypeDisconnect : MessageType := 0x40
def TypeError : MessageType := 0x41
def TypeContainerLogsRequest : MessageType := 0x50
def TypeContainerLogsData : MessageType := 0x51
def TypeContainerLogsStop : MessageType := 0x52

/-- The error values of protocol.go, plus the I/O error `io.ReadFull`
returns on a short stream (`eof`). -/
inductive ProtoErr where
  | invalidMagic
  | invalidVersion
  | payloadTooLarge
  | invalidHeader
  | eof
  deriving DecidableEq, Repr

/-- Go `protocol.Message`: a type tag and a payload byte string. -/
structure Message where
  type : MessageType
  payload : List Nat
  deriving DecidableEq, Repr

/-- `binary.BigEndian.PutUint32`: four big-endian bytes of a `uint32`. -/
def be32encode (n : Nat) : List Nat :=
  [n / 2 ^ 24 % 256, n / 2 ^ 16 % 256, n / 2 ^ 8 % 256, n % 256]

/-- `binary.BigEndian.Uint32`. -/
def be32decode (b0 b1 b2 b3 : Nat) : Nat :=
  b0 * 2 ^ 24 + b1 * 2 ^ 16 + b2 * 2 ^ 8 + b3

/-- `protocol.EncodeHeader`.  Go truncates the tag with `byte(msgType)`
and the length with `uint32(len)`, hence the `% 256` and `% 2^32`. -/
def EncodeHeader (msgType : MessageType) (payloadLen : Nat) : List Nat :=
  [MagicByte1, MagicByte2, ProtoVersion, msgType % 256] ++ be32encode (payloadLen % 2 ^ 32)

/-- `protocol.DecodeHeader`: length guard, magic, version, 16 MiB limit,
in Go's order.  `getD i 0` mirrors the Go index `header[i]`, which is in
bounds exactly when the length guard has passed. -/
def DecodeHeader (header : List Nat) : Except ProtoErr (MessageType × Nat) :=
  if header.length < HeaderSize then .error .invalidHeader
  else if header.getD 0 0 = MagicByte1 ∧ header.getD 1 0 = MagicByte2 then
    if header.getD 2 0 = ProtoVersion then
      let payloadLen := be32decode (header.getD 4 0) (header.getD 5 0)
        (header.getD 6 0) (header.getD 7 0)
      if payloadLen > MaxPayloadSize then .error .payloadTooLarge
      else .ok (header.getD 3 0, payloadLen)
    else .error .invalidVersion
  else .error .invalidMagic

/-- `Message.Encode`: header then payload. -/
def Message.Encode (m : Message) : List Nat :=
  EncodeHeader m.type m.payload.length ++ m.payload

/-- `Reader.Read` over a pure byte stream.  The result pairs the outcome
with the bytes left unconsumed in the buffered reader: the 8 header bytes
are consumed before `DecodeHeader` runs, and on a header error the payload
bytes are left in place. -/
def ReaderRead (stream : List Nat) : Except ProtoErr Message × List Nat :=
  if stream.length < HeaderSize then (.error .eof, stream)
  else
    match DecodeHeader (stream.take HeaderSize) with
    | .error e => (.error e, stream.drop HeaderSize)
    | .ok (msgType, payloadLen) =>
      let rest := stream.drop HeaderSize
      if rest.length < payloadLen then (.error .eof, [])
      else (.ok ⟨msgType, rest.take payloadLen⟩, rest.drop payloadLen)

/-- `Message.Decode` into a target of type `α`: an empty payload returns
`nil` leaving the target unmodified (`v`); otherwise `json.Unmarshal`
(standard library, abstracted as `parse`) produces the new value or an
error (`none`). -/
def MessageDecode {α : Type} (parse : List Nat → Option α) (payload : List Nat)
    (v : α) : Option α :=
  if payload.length = 0 then some v else parse payload

/-! Section: Payload schemas: internal/tcp/protocol (part_001)

Go `float64` metric values are modelled as `ℚ` (the alert logic only
compares them against integer thresholds); Unix timestamps and durations
are `Int`. -/

structure AuthPayload where
  token : String
  hostname : String
  ip : String
  version : String
  deriving DecidableEq, Repr

def zeroAuthPayload : AuthPayload := ⟨"", "", "", ""⟩

structure SystemMetrics where
  cpuPercent : ℚ
  memoryPercent : ℚ
  memoryUsed : Nat
  memoryTotal : Nat
  diskPercent : ℚ
  diskUsed : Nat
  diskTotal : Nat
  loadAvg : List ℚ
  uptime : Int
  deriving DecidableEq, Repr

def zeroSystemMetrics : SystemMetrics := ⟨0, 0, 0, 0, 0, 0, 0, [], 0⟩

/-- `protocol.Container` (one container's entry in a METRICS frame). -/
structure ContainerMsg where
  id : String
  name : String
  image : String
  status : String
  health : String
  cpuPercent : ℚ
  memoryUsage : Nat
  memoryLimit : Nat
  networkRx : Nat
  networkTx : Nat
  restartCount : Int
  startedAt : Int
  deriving DecidableEq, Repr

structure MetricsPayload where
  timestamp : Int
  system : SystemMetrics
  containers : List ContainerMsg
  deriving DecidableEq, Repr

def zeroMetricsPayload : MetricsPayload := ⟨0, zeroSystemMetrics, []⟩

structure CommandAckPayload where
  commandID : String
  status : String
  deriving DecidableEq, Repr

def zeroCommandAckPayload : CommandAckPayload := ⟨"", ""⟩

structure CommandStartPayload where
  commandID : String
  startedAt : Int
  deriving DecidableEq, Repr

def zeroCommandStartPayload : CommandStartPayload := ⟨"", 0⟩

structure CommandLogPayload where
  commandID : String
  line : String
  stream : String
  timestamp : Int
  deriving DecidableEq, Repr

def zeroCommandLogPayload : CommandLogPayload := ⟨"", "", "", 0⟩

structure CommandDonePayload where
  commandID : String
  status : String
  exitCode : Int
  duration : Int
  output : String
  deriving DecidableEq, Repr

def zeroCommandDonePayload : CommandDonePayload := ⟨"", "", 0, 0, ""⟩

/-! Section: Alert logic: internal/logic/alerts.go

`newAlert`'s random `ID` and wall-clock `CreatedAt` are omitted: no claim
depends on them and the server never reads them back. -/

inductive AlertSeverity where
  | warning
  | critical
  deriving DecidableEq, Repr

structure Alert where
  agentID : String
  agentName : String
  type : String
  message : String
  severity : AlertSeverity
  resolved : Bool
  deriving DecidableEq, Repr

def newAlert (agentID agentName alertType msg : String) (severity : AlertSeverity) : Alert :=
  ⟨agentID, agentName, alertType, msg, severity, false⟩

def CheckCPU (agentID agentName : String) (cpuPercent : ℚ) : Option Alert :=
  if cpuPercent > 90 then
    some (newAlert agentID agentName "high_cpu" "CPU usage above 90%" .critical)
  else if cpuPercent > 80 then
    some (newAlert agentID agentName "high_cpu" "CPU usage above 80%" .warning)
  else none

def CheckMemory (agentID agentName : String) (memPercent : ℚ) : Option Alert :=
  if memPercent > 95 then
    some (newAlert agentID agentName "high_memory" "Memory usage above 95%" .critical)
  else if memPercent > 90 then
    some (newAlert agentID agentName "high_memory" "Memory usage above 90%" .warning)
  else none

def CheckDisk (agentID agentName : String) (diskPercent : ℚ) : Option Alert :=
  if diskPercent > 95 then
    some (newAlert agentID agentName "high_disk" "Disk usage above 95%" .critical)
  else if diskPercent > 85 then
    some (newAlert agentID agentName "high_disk" "Disk usage above 85%" .warning)
  else none

def CheckContainerDown (agentID agentName containerName : String) : Option Alert :=
  some (newAlert agentID agentName "container_down"
    ("Container " ++ containerName ++ " is not running") .critical)

def CheckOffline (agentID agentName : String) : Option Alert :=
  some (newAlert agentID agentName "agent_offline"
    ("Agent " ++ agentName ++ " is offline") .critical)

/-! Section: Store model: internal/storage/sqlite (deployment.go, log.go, part_009,
part_011)

SQL tables become lists of records; each operation mirrors exactly the
columns its SQL statement reads or writes.  Record fields the coordination
handlers never touch (e.g. a deployment's repository/branch/commit) are
omitted. -/

inductive AgentStatus where
  | online
  | offline
  deriving DecidableEq, Repr

inductive DeployStatus where
  | pending
  | running
  | success
  | failed
  deriving DecidableEq, Repr

/-- `models.AgentMetrics` as built by `handleMetrics`. -/
structure AgentMetrics where
  cpuPercent : ℚ
  memoryPercent : ℚ
  memoryUsed : Nat
  memoryTotal : Nat
  diskPercent : ℚ
  diskUsed : Nat
  diskTotal : Nat
  loadAvg : List ℚ
  uptime : Int
  deriving DecidableEq, Repr

def systemToAgentMetrics (s : SystemMetrics) : AgentMetrics :=
  ⟨s.cpuPercent, s.memoryPercent, s.memoryUsed, s.memoryTotal,
   s.diskPercent, s.diskUsed, s.diskTotal, s.loadAvg, s.uptime⟩

/-- The metric columns of the `agents` table.  The SQL schema has no
`load_avg` column, so `loadAvg` is dropped on write. -/
structure StoredAgentMetrics where
  cpuPercent : ℚ
  memoryPercent : ℚ
  diskPercent : ℚ
  memoryUsed : Nat
  memoryTotal : Nat
  diskUsed : Nat
  diskTotal : Nat
  uptime : Int
  deriving DecidableEq, Repr

def zeroStoredAgentMetrics : StoredAgentMetrics := ⟨0, 0, 0, 0, 0, 0, 0, 0⟩

/-- A row of the `agents` table (`models.Agent`). -/
structure AgentRec where
  id : String
  name : String
  token : String
  host : String
  hostname : String
  version : String
  status : AgentStatus
  lastHeartbeat : Int
  registeredAt : Int
  metrics : StoredAgentMetrics
  deriving DecidableEq, Repr

/-- A row of the `containers` table (`models.Container`). -/
structure ContainerRec where
  id : String
  agentID : String
  name : String
  image : String
  status : String
  health : String
  cpuPercent : ℚ
  memoryUsage : Nat
  memoryLimit : Nat
  networkRx : Nat
  networkTx : Nat
  restartCount : Int
  startedAt : Int
  deriving DecidableEq, Repr

/-- A row of the `deployments` table, restricted to the columns the
coordination handlers read or write. -/
structure Deployment where
  id : String
  status : DeployStatus
  startedAt : Int
  endedAt : Option Int
  duration : Int
  output : String
  deriving DecidableEq, Repr

structure DeploymentLog where
  deploymentID : String
  line : String
  stream : String
  timestamp : Int
  deriving DecidableEq, Repr

structure Store where
  deployments : List Deployment
  deploymentLogs : List DeploymentLog
  alerts : List Alert
  agents : List AgentRec
  containers : List ContainerRec
  deriving DecidableEq, Repr

def emptyStore : Store := ⟨[], [], [], [], []⟩

/-- Row lookup by id in the `deployments` table. -/
def findDeployment : List Deployment → String → Option Deployment
  | [], _ => none
  | d :: tl, id => if d.id = id then some d else findDeployment tl id

/-- `GetDeployment` (`SELECT ... WHERE id = ?`, `ErrNoRows ↦ nil`). -/
def Store.getDeployment (st : Store) (id : String) : Option Deployment :=
  findDeployment st.deployments id

/-- `UpdateDeployment`: the SQL writes only `status`, `finished_at`,
`duration_ms` and `output` (never `started_at`). -/
def Store.updateDeployment (st : Store) (d : Deployment) : Store :=
  { st with
    deployments := st.deployments.map (fun old =>
      if old.id = d.id then
        { old with
          status := d.status
          endedAt := d.endedAt
          duration := d.duration
          output := d.output }
      else old) }

/-- `AddDeploymentLog` (plain `INSERT`). -/
def Store.addDeploymentLog (st : Store) (l : DeploymentLog) : Store :=
  { st with deploymentLogs := st.deploymentLogs ++ [l] }

/-- `CreateAlert` (plain `INSERT`, no deduplication). -/
def Store.createAlert (st : Store) (a : Alert) : Store :=
  { st with alerts := st.alerts ++ [a] }

/-- `GetActiveAlerts` (`WHERE resolved = 0`). -/
def Store.getActiveAlerts (st : Store) : List Alert :=
  st.alerts.filter (fun a => !a.resolved)

/-- Row lookup by id in the `agents` table. -/
def findAgent : List AgentRec → String → Option AgentRec
  | [], _ => none
  | a :: tl, id => if a.id = id then some a else findAgent tl id

/-- `GetAgent` restricted to row existence and identity columns. -/
def Store.getAgent (st : Store) (id : String) : Option AgentRec :=
  findAgent st.agents id

/-- `CreateAgent` (INSERT, `created_at = now`). -/
def Store.createAgent (st : Store) (a : AgentRec) : Store :=
  { st with agents := st.agents ++ [a] }

/-- `UpdateAgent`: `COALESCE(NULLIF(x, ''), old)` keeps the old column
when the new value is the empty string; `status` and `last_heartbeat` are
always written. -/
def Store.updateAgent (st : Store) (id host hostname version : String)
    (status : AgentStatus) (lastHeartbeat : Int) : Store :=
  { st with
    agents := st.agents.map (fun a =>
      if a.id = id then
        { a with
          host := if host = "" then a.host else host,
          hostname := if hostname = "" then a.hostname else hostname,
          version := if version = "" then a.version else version,
          status := status, lastHeartbeat := lastHeartbeat }
      else a) }

/-- `UpdateAgentMetrics`: writes the metric columns, forces
`status = 'online'` and refreshes `last_heartbeat`. -/
def Store.updateAgentMetrics (st : Store) (id : String) (m : AgentMetrics)
    (now : Int) : Store :=
  { st with
    agents := st.agents.map (fun a =>
      if a.id = id then
        { a with
          metrics := ⟨m.cpuPercent, m.memoryPercent, m.diskPercent,
            m.memoryUsed, m.memoryTotal, m.diskUsed, m.diskTotal, m.uptime⟩,
          status := .online, lastHeartbeat := now }
      else a) }

/-- `UpdateAgentStatus` (`SET status = ?, last_heartbeat = now`). -/
def Store.updateAgentStatus (st : Store) (id : String) (status : AgentStatus)
    (now : Int) : Store :=
  { st with
    agents := st.agents.map (fun a =>
      if a.id = id then { a with status := status, lastHeartbeat := now } else a) }

/-- `UpsertContainer`: `INSERT .. ON CONFLICT(id) DO UPDATE` of the
runtime columns only (`name`, `image`, `agent_id`, `started_at` keep their
stored values on conflict). -/
def Store.upsertContainer (st : Store) (c : ContainerRec) : Store :=
  if (st.containers.find? (fun o => o.id == c.id)).isSome then
    { st with
      containers := st.containers.map (fun o =>
        if o.id = c.id then
          { o with
            status := c.status
            health := c.health
            cpuPercent := c.cpuPercent
            memoryUsage := c.memoryUsage
            memoryLimit := c.memoryLimit
            networkRx := c.networkRx
            networkTx := c.networkTx
            restartCount := c.restartCount }
        else o) }
  else { st with containers := st.containers ++ [c] }

/-! Section: Coordinator server: part_002 (package tcp) and connection.go

The registry `Server.connections : map[string]*Connection` becomes an
association list with unique keys; Go map assignment and delete become
`aset`/`aerase`.  A `Connection` is reduced to the fields the server
logic reads: its identity (`cid`, from `helper.GenerateID`), the bound
agent name, and `LastPing`.  Closing a connection is recorded by pushing
its `cid` onto `closed`.  Frames written back to the worker are collected
in a `SentFrame` list. -/

def alookup {α : Type} : List (String × α) → String → Option α
  | [], _ => none
  | kv :: tl, k => if kv.1 = k then some kv.2 else alookup tl k

def aerase {α : Type} : List (String × α) → String → List (String × α)
  | [], _ => []
  | kv :: tl, k => if kv.1 = k then aerase tl k else kv :: aerase tl k

def aset {α : Type} (l : List (String × α)) (k : String) (v : α) : List (String × α) :=
  (k, v) :: aerase l k

/-- Timeouts from part_002 (seconds). -/
def AuthTimeout : Int := 10

def PingInterval : Int := 30

def PongTimeout : Int := 45

structure ConnEntry where
  cid : Nat
  agentName : String
  lastPing : Int
  deriving DecidableEq, Repr

structure ServerState where
  connections : List (String × ConnEntry)
  closed : List Nat
  store : Store
  deriving DecidableEq, Repr

/-- Frames the coordinator writes back on a session. -/
inductive SentFrame where
  | errorFrame (code : Nat) (message : String)
  | authFail (reason : String)
  | authOkFrame (agentID name serverVersion : String)
  | metricsAck
  | ping
  deriving DecidableEq, Repr

def SentFrame.isAuthFail : SentFrame → Bool
  | .authFail _ => true
  | _ => false

/-- `Server.addConnection`: close any prior session registered under this
agent id, then install the new one. -/
def addConnection (st : ServerState) (agentID : String) (e : ConnEntry) : ServerState :=
  match alookup st.connections agentID with
  | some old =>
    { st with closed := old.cid :: st.closed, connections := aset st.connections agentID e }
  | none => { st with connections := aset st.connections agentID e }

/-- `Server.removeConnection`: keyed by agent id only — whatever session
is currently registered under `agentID` is closed and deregistered, the
agent is marked offline, and `CheckOffline` (always non-nil) feeds an
unconditional `CreateAlert`.  No identity check against the caller's own
connection, and no disconnect hook exists. -/
def removeConnection (st : ServerState) (agentID : String) (now : Int) : ServerState :=
  match alookup st.connections agentID with
  | none => st
  | some c =>
    let store := st.store.updateAgentStatus agentID .offline now
    let store :=
      match CheckOffline agentID c.agentName with
      | some alert => store.createAlert alert
      | none => store
    { st with
      closed := c.cid :: st.closed
      connections := aerase st.connections agentID
      store := store }

/-- One iteration of `Server.pingAll`'s loop: a session whose `LastPing`
is more than `PongTimeout` old is removed (with `removeConnection`'s side
effects); every other session is sent a PING (collected by cid). -/
def pingStep (now : Int) (acc : ServerState × List Nat) (kv : String × ConnEntry) :
    ServerState × List Nat :=
  if now - kv.2.lastPing > PongTimeout then (removeConnection acc.1 kv.1 now, acc.2)
  else (acc.1, acc.2 ++ [kv.2.cid])

/-- `Server.pingAll`: one liveness tick over a snapshot of the registry
(the `pingService` ticker fires it every `PingInterval`). -/
def pingAll (st : ServerState) (now : Int) : ServerState × List Nat :=
  st.connections.foldl (pingStep now) (st, [])

/-- `Connection.UpdatePing` on the session registered under `agentID`
(the Go code mutates the `Connection` in place; the registered entry for
its agent id is that connection). -/
def updatePing (st : ServerState) (agentID : String) (now : Int) : ServerState :=
  { st with
    connections := st.connections.map (fun kv =>
      if kv.1 = agentID then (kv.1, { kv.2 with lastPing := now }) else kv) }

/-- `conn.Close()` alone (the DISCONNECT handler): mark the session's
connection closed without deregistering it. -/
def closeConn (st : ServerState) (agentID : String) : ServerState :=
  match alookup st.connections agentID with
  | some e => { st with closed := e.cid :: st.closed }
  | none => st

/-! Subsection: Authentication: `Server.authenticate` + the auth phase of
`Server.handleConnection` -/

/-- Worker entries of the coordinator's config token table. -/
structure AgentConfig where
  id : String
  name : String
  token : String
  deriving DecidableEq, Repr

/-- `Config.GetAgentByToken`: linear scan for a matching token. -/
def GetAgentByToken : List AgentConfig → String → Option AgentConfig
  | [], _ => none
  | a :: tl, token => if a.token = token then some a else GetAgentByToken tl token

inductive AuthResult where
  | authOk (agentID name : String)
  | failRecv
  | failNotAuth
  | failDecode
  | failToken
  deriving DecidableEq, Repr

/-- The store update `Server.authenticate` performs on success: create the
agent row if absent, else COALESCE-update it; either way the row ends
online with a fresh heartbeat. -/
def upsertAgentOnAuth (st : Store) (cfg : AgentConfig) (host : String)
    (auth : AuthPayload) (now : Int) : Store :=
  match st.getAgent cfg.id with
  | none =>
    st.createAgent
      { id := cfg.id, name := cfg.name, token := cfg.token, host := host
        hostname := auth.hostname, version := auth.version, status := .online
        lastHeartbeat := now, registeredAt := now, metrics := zeroStoredAgentMetrics }
  | some _ => st.updateAgent cfg.id host auth.hostname auth.version .online now

/-- `Server.authenticate`.  `recv` is the outcome of the first
`ReceiveWithTimeout`; `parseAuth` abstracts `json.Unmarshal` for the auth
payload (an empty payload leaves the zero value, per `Message.Decode`).
Returns the auth outcome, the updated store, and the frames written back
to the worker. -/
def authenticate (parseAuth : List Nat → Option AuthPayload)
    (cfgAgents : List AgentConfig) (st : Store) (remoteHost : String) (now : Int)
    (recv : Except ProtoErr Message) : AuthResult × Store × List SentFrame :=
  match recv with
  | .error _ => (.failRecv, st, [])
  | .ok msg =>
    if msg.type = TypeAuth then
      match MessageDecode parseAuth msg.payload zeroAuthPayload with
      | none => (.failDecode, st, [.errorFrame 400 "invalid auth payload"])
      | some auth =>
        match GetAgentByToken cfgAgents auth.token with
        | none => (.failToken, st, [.authFail "invalid token"])
        | some cfg =>
          (.authOk cfg.id cfg.name, upsertAgentOnAuth st cfg remoteHost auth now,
            [.authOkFrame cfg.id cfg.name "1.0.0"])
    else (.failNotAuth, st, [.errorFrame 401 "expected AUTH message"])

/-- The auth phase of `Server.handleConnection`: on failure the raw
connection is closed and the registry is never touched; on success the
session is registered via `addConnection` (the new `Connection`'s
`LastPing` is initialised to now). -/
def handleConnectionAuth (parseAuth : List Nat → Option AuthPayload)
    (cfgAgents : List AgentConfig) (st : ServerState) (cid : Nat)
    (remoteHost : String) (now : Int) (recv : Except ProtoErr Message) :
    ServerState × List SentFrame :=
  match authenticate parseAuth cfgAgents st.store remoteHost now recv with
  | (.authOk agentID name, store, frames) =>
    (addConnection { st with store := store } agentID ⟨cid, name, now⟩, frames)
  | (_, store, frames) => ({ st with store := store, closed := cid :: st.closed }, frames)

/-- The frame `Server.authenticate` writes back for each failure mode
(nothing on a receive error, `ERROR 401` for a first frame that is not
AUTH, `ERROR 400` for an undecodable auth payload, and
`AUTH_FAIL{reason="invalid token"}` for an unknown token). -/
def authFailureReport : AuthResult → List SentFrame
  | .failRecv => []
  | .failNotAuth => [.errorFrame 401 "expected AUTH message"]
  | .failDecode => [.errorFrame 400 "invalid auth payload"]
  | .failToken => [.authFail "invalid token"]
  | .authOk _ _ => []

/-! Subsection: Per-kind message handlers (part_002) -/

/-- `Server.handleCommandAck`: advance a Pending deployment to Running. -/
def handleCommandAck (parse : List Nat → Option CommandAckPayload) (st : Store)
    (payload : List Nat) : Store :=
  match MessageDecode parse payload zeroCommandAckPayload with
  | none => st
  | some ack =>
    match st.getDeployment ack.commandID with
    | some d =>
      if d.status = .pending then st.updateDeployment { d with status := .running } else st
    | none => st

/-- `Server.handleCommandStart`: mark the deployment Running.  The
payload's `started_at` is never read, and `UpdateDeployment`'s SQL does
not write `started_at`. -/
def handleCommandStart (parse : List Nat → Option CommandStartPayload) (st : Store)
    (payload : List Nat) : Store :=
  match MessageDecode parse payload zeroCommandStartPayload with
  | none => st
  | some start =>
    match st.getDeployment start.commandID with
    | some d => st.updateDeployment { d with status := .running }
    | none => st

/-- `Server.handleCommandLog`: append the line to the deployment log (the
`onLog` hook forwards the same data externally). -/
def handleCommandLog (parse : List Nat → Option CommandLogPayload) (st : Store)
    (payload : List Nat) : Store :=
  match MessageDecode parse payload zeroCommandLogPayload with
  | none => st
  | some lp => st.addDeploymentLog ⟨lp.commandID, lp.line, lp.stream, lp.timestamp⟩

/-- `Server.handleCommandDone`: resolve the deployment, record end time,
duration (`now − started_at` in the store's row) and output, and append a
final log line when the output is non-empty; unknown `command_id` frames
are ignored. -/
def handleCommandDone (parse : List Nat → Option CommandDonePayload) (st : Store)
    (now : Int) (payload : List Nat) : Store :=
  match MessageDecode parse payload zeroCommandDonePayload with
  | none => st
  | some done =>
    match st.getDeployment done.commandID with
    | none => st
    | some d =>
      let status : DeployStatus := if done.status = "success" then .success else .failed
      let st := st.updateDeployment
        { d with
          status := status
          output := done.output
          endedAt := some now
          duration := now - d.startedAt }
      if done.output ≠ "" then
        let streamType := if status = .failed then "stderr" else "stdout"
        st.addDeploymentLog ⟨done.commandID, done.output, streamType, now⟩
      else st

/-- `models.Container` as built in `Server.handleMetrics` from one
container entry of a METRICS payload. -/
def containerOf (agentID : String) (c : ContainerMsg) : ContainerRec :=
  { id := c.id, agentID := agentID, name := c.name, image := c.image
    status := c.status, health := c.health, cpuPercent := c.cpuPercent
    memoryUsage := c.memoryUsage, memoryLimit := c.memoryLimit
    networkRx := c.networkRx, networkTx := c.networkTx
    restartCount := c.restartCount, startedAt := c.startedAt }

/-- The `createIfNotExists` closure of `Server.handleMetrics`: create the
alert unless its message is already in the active-alert map. -/
def createIfNotExists (acc : Store × List String) (alert : Option Alert) :
    Store × List String :=
  match alert with
  | some a => if acc.2.contains a.message then acc else (acc.1.createAlert a, a.message :: acc.2)
  | none => acc

/-- `Server.handleMetrics`: decode (zero value on empty payload, drop the
frame on a parse error), update the agent's stored metrics, upsert each
reported container with a `container_down` alert for non-running ones,
evaluate the cpu/mem/disk thresholds with deduplication against the
agent's unresolved alerts, and reply METRICS_ACK.  The `onMetrics`
external hook is outside the store model. -/
def handleMetrics (parse : List Nat → Option MetricsPayload) (st : Store)
    (agentID agentName : String) (now : Int) (payload : List Nat) :
    Store × List SentFrame :=
  match MessageDecode parse payload zeroMetricsPayload with
  | none => (st, [])
  | some metrics =>
    let am := systemToAgentMetrics metrics.system
    let st := st.updateAgentMetrics agentID am now
    let activeMsgs :=
      ((st.getActiveAlerts).filter (fun a => a.agentID == agentID && !a.resolved)).map
        (fun a => a.message)
    let acc := metrics.containers.foldl
      (fun (acc : Store × List String) c =>
        let acc := (acc.1.upsertContainer (containerOf agentID c), acc.2)
        if c.status ≠ "running" ∧ c.status ≠ "created" ∧ c.status ≠ "starting" ∧
            c.status ≠ "restarting" then
          createIfNotExists acc (CheckContainerDown agentID agentName c.name)
        else acc)
      (st, activeMsgs)
    let acc := createIfNotExists acc (CheckCPU agentID agentName metrics.system.cpuPercent)
    let acc := createIfNotExists acc (CheckMemory agentID agentName metrics.system.memoryPercent)
    let acc := createIfNotExists acc (CheckDisk agentID agentName metrics.system.diskPercent)
    (acc.1, [.metricsAck])

/-- The parse oracles `Server.processMessage` needs (one per JSON payload
schema, all standing for `json.Unmarshal`). -/
structure ParseOracles where
  auth : List Nat → Option AuthPayload
  metrics : List Nat → Option MetricsPayload
  commandAck : List Nat → Option CommandAckPayload
  commandStart : List Nat → Option CommandStartPayload
  commandLog : List Nat → Option CommandLogPayload
  commandDone : List Nat → Option CommandDonePayload

/-- `Server.processMessage`: dispatch by kind.  CONTAINER_LOGS_DATA only
feeds the external hook; unknown kinds are ignored. -/
def processMessage (p : ParseOracles) (st : ServerState) (agentID agentName : String)
    (now : Int) (msg : Message) : ServerState × List SentFrame :=
  if msg.type = TypeMetrics then
    let r := handleMetrics p.metrics st.store agentID agentName now msg.payload
    ({ st with store := r.1 }, r.2)
  else if msg.type = TypeCommandAck then
    ({ st with store := handleCommandAck p.commandAck st.store msg.payload }, [])
  else if msg.type = TypeCommandStart then
    ({ st with store := handleCommandStart p.commandStart st.store msg.payload }, [])
  else if msg.type = TypeCommandLog then
    ({ st with store := handleCommandLog p.commandLog st.store msg.payload }, [])
  else if msg.type = TypeCommandDone then
    ({ st with store := handleCommandDone p.commandDone st.store now msg.payload }, [])
  else if msg.type = TypePong then (updatePing st agentID now, [])
  else if msg.type = TypeDisconnect then (closeConn st agentID, [])
  else (st, [])

/-! Section: Worker daemon stream-cancel table: internal/agent/daemon/daemon.go

`streamCancels : map[string]context.CancelFunc` becomes an association
list from container id to an opaque cancel-handle token; invoking a
handle is recorded by pushing its token onto `cancelled`. -/

structure DaemonState where
  streamCancels : List (String × Nat)
  cancelled : List Nat
  deriving DecidableEq, Repr

/-- `Daemon.stopContainerStream`: look up the handle, invoke it and
delete the entry if present. -/
def stopContainerStream (d : DaemonState) (containerID : String) : DaemonState :=
  match alookup d.streamCancels containerID with
  | some tok =>
    { streamCancels := aerase d.streamCancels containerID, cancelled := tok :: d.cancelled }
  | none => d

/-- The install phase of `Daemon.handleContainerLogsRequest`: cancel any
prior stream for the container, then install the new cancel handle.  (The
subsequent docker log tailing is external I/O.) -/
def handleContainerLogsRequest (d : DaemonState) (containerID : String)
    (newTok : Nat) : DaemonState :=
  let d := stopContainerStream d containerID
  { d with streamCancels := aset d.streamCancels containerID newTok }

/-- `Daemon.disconnect` (stream-table part): invoke every handle and
reset the table to an empty map. -/
def daemonDisconnect (d : DaemonState) : DaemonState :=
  { streamCancels := []
    cancelled := (d.streamCancels.map Prod.snd).reverse ++ d.cancelled }

/-! Basic codec lemmas. -/

theorem be32decode_encode (n : Nat) (h : n < 2 ^ 32) :
    be32decode (n / 2 ^ 24 % 256) (n / 2 ^ 16 % 256) (n / 2 ^ 8 % 256) (n % 256) = n := by
  unfold be32decode
  omega

theorem encodeHeader_length (t len : Nat) : (EncodeHeader t len).length = HeaderSize := by
  simp [EncodeHeader, be32encode, HeaderSize]

theorem decodeHeader_encodeHeader (t len : Nat) (hlen : len < 2 ^ 32) :
    DecodeHeader (EncodeHeader t len) =
      if len > MaxPayloadSize then .error .payloadTooLarge else .ok (t % 256, len) := by
  have h32 : len % 2 ^ 32 = len := Nat.mod_eq_of_lt hlen
  simp only [DecodeHeader, EncodeHeader, be32encode, h32, List.cons_append, List.nil_append,
    List.length_cons, List.length_nil, List.getD_cons_zero, List.getD_cons_succ, HeaderSize]
  rw [if_pos trivial, be32decode_encode len hlen]
  norm_num

theorem take_header_append (header tail : List Nat) (h : header.length = HeaderSize) :
    (header ++ tail).take HeaderSize = header := by
  rw [← h, List.take_left]

theorem drop_header_append (header tail : List Nat) (h : header.length = HeaderSize) :
    (header ++ tail).drop HeaderSize = tail := by
  rw [← h, List.drop_left]

theorem readerRead_encode (m : Message) (rest : List Nat) (hty : m.type < 256)
    (hlen : m.payload.length ≤ MaxPayloadSize) :
    ReaderRead (m.Encode ++ rest) = (.ok m, rest) := by
  have h32 : m.payload.length < 2 ^ 32 := by
    have : MaxPayloadSize < 2 ^ 32 := by norm_num [MaxPayloadSize]
    omega
  have hhl := encodeHeader_length m.type m.payload.length
  unfold ReaderRead Message.Encode
  rw [List.append_assoc]
  rw [if_neg (by simp only [List.length_append, hhl]; omega)]
  rw [take_header_append _ _ hhl, drop_header_append _ _ hhl,
    decodeHeader_encodeHeader _ _ h32, if_neg (by omega)]
  simp only [Nat.mod_eq_of_lt hty]
  rw [if_neg (by simp only [List.length_append]; omega)]
  rw [List.take_left, List.drop_left]

theorem readerRead_encode_oversized (m : Message) (rest : List Nat)
    (hbig : m.payload.length > MaxPayloadSize) (h32 : m.payload.length < 2 ^ 32) :
    (ReaderRead (m.Encode ++ rest)).1 = .error .payloadTooLarge := by
  have hhl := encodeHeader_length m.type m.payload.length
  unfold ReaderRead Message.Encode
  rw [List.append_assoc]
  rw [if_neg (by simp only [List.length_append, hhl]; omega)]
  rw [take_header_append _ _ hhl, decodeHeader_encodeHeader _ _ h32, if_pos hbig]

theorem encode_length (m : Message) : m.Encode.length = HeaderSize + m.payload.length := by
  simp only [Message.Encode, List.length_append, encodeHeader_length]

theorem encode_replicate_length (t : MessageType) (n : Nat) :
    (Message.Encode ⟨t, List.replicate n 0⟩).length = HeaderSize + n := by
  rw [encode_length]
  simp only [List.length_replicate]

theorem replicate_oversized_gt (n : Nat) :
    (List.replicate (n + 1) (0 : Nat)).length > n := by
  simp only [List.length_replicate]
  omega

theorem replicate_oversized_lt (n : Nat) (h : n + 1 < 2 ^ 32) :
    (List.replicate (n + 1) (0 : Nat)).length < 2 ^ 32 := by
  simp only [List.length_replicate]
  exact h

theorem decodeHeader_short (header : List Nat) (h : header.length < HeaderSize) :
    DecodeHeader header = .error .invalidHeader := by
  unfold DecodeHeader
  rw [if_pos h]

theorem decodeHeader_badMagic (b0 b1 b2 b3 b4 b5 b6 b7 : Nat) (rest : List Nat)
    (h : ¬(b0 = MagicByte1 ∧ b1 = MagicByte2)) :
    DecodeHeader (b0 :: b1 :: b2 :: b3 :: b4 :: b5 :: b6 :: b7 :: rest) =
      .error .invalidMagic := by
  unfold DecodeHeader
  rw [if_neg (by simp [HeaderSize])]
  simp only [List.getD_cons_zero, List.getD_cons_succ]
  rw [if_neg h]

theorem decodeHeader_badVersion (b2 b3 b4 b5 b6 b7 : Nat) (rest : List Nat)
    (h : b2 ≠ ProtoVersion) :
    DecodeHeader (MagicByte1 :: MagicByte2 :: b2 :: b3 :: b4 :: b5 :: b6 :: b7 :: rest) =
      .error .invalidVersion := by
  unfold DecodeHeader
  rw [if_neg (by simp [HeaderSize])]
  simp only [List.getD_cons_zero, List.getD_cons_succ]
  simp [h]

theorem decodeHeader_tooLarge (b3 b4 b5 b6 b7 : Nat) (rest : List Nat)
    (h : be32decode b4 b5 b6 b7 > MaxPayloadSize) :
    DecodeHeader (MagicByte1 :: MagicByte2 :: ProtoVersion :: b3 :: b4 :: b5 :: b6 :: b7 :: rest) =
      .error .payloadTooLarge := by
  unfold DecodeHeader
  rw [if_neg (by simp [HeaderSize])]
  simp only [List.getD_cons_zero, List.getD_cons_succ]
  simp [h]

theorem readerRead_header_error (header payload : List Nat) (e : ProtoErr)
    (hl : header.length = HeaderSize) (hd : DecodeHeader header = .error e) :
    ReaderRead (header ++ payload) = (.error e, payload) := by
  unfold ReaderRead
  rw [if_neg (by simp only [List.length_append, hl]; omega),
    take_header_append _ _ hl, hd, drop_header_append _ _ hl]

/-! Association-list lemmas for the registry and the stream table. -/

theorem alookup_aset_self {α : Type} (l : List (String × α)) (k : String) (v : α) :
    alookup (aset l k v) k = some v := by
  simp [alookup, aset]

theorem alookup_aerase_self {α : Type} (l : List (String × α)) (k : String) :
    alookup (aerase l k) k = none := by
  induction l with
  | nil => rfl
  | cons hd tl ih =>
    by_cases h : hd.1 = k
    · simpa [aerase, h] using ih
    · simpa [aerase, alookup, h] using ih

theorem alookup_aerase_ne {α : Type} (l : List (String × α)) (k w : String) (h : k ≠ w) :
    alookup (aerase l k) w = alookup l w := by
  induction l with
  | nil => rfl
  | cons hd tl ih =>
    by_cases hh : hd.1 = k
    · have hw : ¬(hd.1 = w) := by rw [hh]; exact h
      simp [aerase, alookup, hh, hw, h, ih]
    · by_cases hw : hd.1 = w
      · simp [aerase, alookup, hh, hw, Ne.symm h]
      · simp [aerase, alookup, hh, hw, ih]

theorem mem_keys_aerase {α : Type} (l : List (String × α)) (k w : String)
    (h : w ∈ (aerase l k).map Prod.fst) : w ∈ l.map Prod.fst := by
  induction l with
  | nil => simp [aerase] at h
  | cons hd tl ih =>
    by_cases hh : hd.1 = k
    · simp only [aerase, hh, if_pos rfl] at h
      exact List.mem_cons_of_mem _ (ih h)
    · simp only [aerase, hh, if_false, List.map_cons, List.mem_cons] at h ⊢
      rcases h with h | h
      · exact Or.inl h
      · exact Or.inr (ih h)

theorem not_mem_keys_aerase {α : Type} (l : List (String × α)) (k : String) :
    k ∉ (aerase l k).map Prod.fst := by
  induction l with
  | nil => simp [aerase]
  | cons hd tl ih =>
    by_cases hh : hd.1 = k
    · simpa [aerase, hh] using ih
    · simp only [aerase, hh, if_false, List.map_cons, List.mem_cons]
      rintro (h | h)
      · exact hh h.symm
      · exact ih h

theorem keys_aerase_nodup {α : Type} (l : List (String × α)) (k : String)
    (h : (l.map Prod.fst).Nodup) : ((aerase l k).map Prod.fst).Nodup := by
  induction l with
  | nil => simp [aerase]
  | cons hd tl ih =>
    simp only [List.map_cons, List.nodup_cons] at h
    by_cases hh : hd.1 = k
    · simpa [aerase, hh] using ih h.2
    · simp only [aerase, hh, if_false, List.map_cons, List.nodup_cons]
      exact ⟨fun hmem => h.1 (mem_keys_aerase tl k hd.1 hmem), ih h.2⟩

theorem keys_aset_nodup {α : Type} (l : List (String × α)) (k : String) (v : α)
    (h : (l.map Prod.fst).Nodup) : ((aset l k v).map Prod.fst).Nodup := by
  simp only [aset, List.map_cons, List.nodup_cons]
  exact ⟨not_mem_keys_aerase l k, keys_aerase_nodup l k h⟩

/-! Deployment-table lemmas: the effect of `UpdateDeployment`'s SQL on the
row `GetDeployment` finds. -/

theorem findDeployment_some_id (l : List Deployment) (i : String) (d : Deployment)
    (h : findDeployment l i = some d) : d.id = i := by
  induction l with
  | nil => simp [findDeployment] at h
  | cons hd tl ih =>
    by_cases hh : hd.id = i
    · have hd_eq : hd = d := by simpa [findDeployment, hh] using h
      rw [← hd_eq]
      exact hh
    · simp only [findDeployment, hh, if_false] at h
      exact ih h

theorem findDeployment_update (l : List Deployment) (i : String) (d e : Deployment)
    (hfind : findDeployment l i = some d) (he : e.id = d.id) :
    findDeployment (l.map (fun old =>
        if old.id = e.id then
          { old with
            status := e.status
            endedAt := e.endedAt
            duration := e.duration
            output := e.output }
        else old)) i
      = some { d with
          status := e.status
          endedAt := e.endedAt
          duration := e.duration
          output := e.output } := by
  induction l with
  | nil => simp [findDeployment] at hfind
  | cons hd tl ih =>
    by_cases hh : hd.id = i
    · have hd_eq : hd = d := by simpa [findDeployment, hh] using hfind
      subst hd_eq
      have hcond : hd.id = e.id := by rw [he]
      have hei : e.id = i := by rw [he]; exact hh
      simp [findDeployment, hcond, hei, hh]
    · have hfind' : findDeployment tl i = some d := by
        simpa [findDeployment, hh] using hfind
      have hdi : d.id = i := findDeployment_some_id tl i d hfind'
      have hcond : ¬(hd.id = e.id) := by
        rw [he, hdi]
        exact hh
      simp only [List.map_cons, hcond, if_false]
      simp only [findDeployment, hh, if_false]
      exact ih hfind'

theorem getDeployment_updateDeployment (st : Store) (i : String) (d e : Deployment)
    (hfind : st.getDeployment i = some d) (he : e.id = d.id) :
    (st.updateDeployment e).getDeployment i
      = some { d with
          status := e.status
          endedAt := e.endedAt
          duration := e.duration
          output := e.output } :=
  findDeployment_update st.deployments i d e hfind he

/-! Registry and liveness lemmas. -/

theorem alookup_of_mem_nodup {α : Type} (l : List (String × α)) (w : String) (v : α)
    (hmem : (w, v) ∈ l) (hnodup : (l.map Prod.fst).Nodup) : alookup l w = some v := by
  induction l with
  | nil => exact absurd hmem (List.not_mem_nil _)
  | cons kv tl ih =>
    simp only [List.map_cons, List.nodup_cons] at hnodup
    rcases List.mem_cons.mp hmem with heq | hmemtl
    · cases heq
      simp [alookup]
    · have hne : kv.1 ≠ w :=
        fun hkw => hnodup.1 (hkw ▸ List.mem_map.mpr ⟨(w, v), hmemtl, rfl⟩)
      simp only [alookup, hne, if_false]
      exact ih hmemtl hnodup.2

theorem alookup_removeConnection_ne (st : ServerState) (k w : String) (now : Int)
    (h : k ≠ w) :
    alookup (removeConnection st k now).connections w = alookup st.connections w := by
  unfold removeConnection
  cases hl : alookup st.connections k with
  | none => rfl
  | some c => exact alookup_aerase_ne st.connections k w h

theorem alookup_removeConnection_self (st : ServerState) (k : String) (now : Int) :
    alookup (removeConnection st k now).connections k = none := by
  unfold removeConnection
  cases hl : alookup st.connections k with
  | none => exact hl
  | some c => exact alookup_aerase_self st.connections k

theorem closed_removeConnection_mono (st : ServerState) (k : String) (now : Int) (x : Nat)
    (h : x ∈ st.closed) : x ∈ (removeConnection st k now).closed := by
  unfold removeConnection
  cases hl : alookup st.connections k with
  | none => exact h
  | some c => exact List.mem_cons_of_mem _ h

theorem cid_closed_removeConnection (st : ServerState) (k : String) (now : Int)
    (c : ConnEntry) (h : alookup st.connections k = some c) :
    c.cid ∈ (removeConnection st k now).closed := by
  unfold removeConnection
  rw [h]
  exact List.mem_cons_self _ _

theorem pingStep_lookup_ne (now : Int) (acc : ServerState × List Nat)
    (kv : String × ConnEntry) (w : String) (h : kv.1 ≠ w) :
    alookup (pingStep now acc kv).1.connections w = alookup acc.1.connections w := by
  unfold pingStep
  by_cases ht : now - kv.2.lastPing > PongTimeout
  · rw [if_pos ht]
    exact alookup_removeConnection_ne acc.1 kv.1 w now h
  · rw [if_neg ht]

theorem pingStep_closed_mono (now : Int) (acc : ServerState × List Nat)
    (kv : String × ConnEntry) (x : Nat) (h : x ∈ acc.1.closed) :
    x ∈ (pingStep now acc kv).1.closed := by
  unfold pingStep
  by_cases ht : now - kv.2.lastPing > PongTimeout
  · rw [if_pos ht]
    exact closed_removeConnection_mono acc.1 kv.1 now x h
  · rw [if_neg ht]
    exact h

theorem pingStep_pings_mono (now : Int) (acc : ServerState × List Nat)
    (kv : String × ConnEntry) (x : Nat) (h : x ∈ acc.2) : x ∈ (pingStep now acc kv).2 := by
  unfold pingStep
  by_cases ht : now - kv.2.lastPing > PongTimeout
  · rw [if_pos ht]
    exact h
  · rw [if_neg ht]
    exact List.mem_append_left _ h

theorem foldl_pingStep_lookup_notmem (now : Int) :
    ∀ (l : List (String × ConnEntry)) (w : String) (acc : ServerState × List Nat),
      w ∉ l.map Prod.fst →
      alookup (l.foldl (pingStep now) acc).1.connections w = alookup acc.1.connections w
  | [], _, _, _ => rfl
  | kv :: tl, w, acc, hw => by
    simp only [List.map_cons, List.mem_cons, not_or] at hw
    rw [List.foldl_cons, foldl_pingStep_lookup_notmem now tl w _ hw.2,
      pingStep_lookup_ne now acc kv w (fun he => hw.1 he.symm)]

theorem foldl_pingStep_closed_mono (now : Int) :
    ∀ (l : List (String × ConnEntry)) (acc : ServerState × List Nat) (x : Nat),
      x ∈ acc.1.closed → x ∈ (l.foldl (pingStep now) acc).1.closed
  | [], _, _, h => h
  | kv :: tl, acc, x, h =>
    foldl_pingStep_closed_mono now tl _ x (pingStep_closed_mono now acc kv x h)

theorem foldl_pingStep_pings_mono (now : Int) :
    ∀ (l : List (String × ConnEntry)) (acc : ServerState × List Nat) (x : Nat),
      x ∈ acc.2 → x ∈ (l.foldl (pingStep now) acc).2
  | [], _, _, h => h
  | kv :: tl, acc, x, h =>
    foldl_pingStep_pings_mono now tl _ x (pingStep_pings_mono now acc kv x h)

theorem foldl_pingStep_mem_spec (now : Int) (l : List (String × ConnEntry)) :
    ∀ (acc : ServerState × List Nat) (w : String) (e : ConnEntry),
      (w, e) ∈ l → (l.map Prod.fst).Nodup →
      alookup acc.1.connections w = some e →
      (now - e.lastPing > PongTimeout →
        alookup (l.foldl (pingStep now) acc).1.connections w = none
        ∧ e.cid ∈ (l.foldl (pingStep now) acc).1.closed)
      ∧ (¬(now - e.lastPing > PongTimeout) →
        alookup (l.foldl (pingStep now) acc).1.connections w = some e
        ∧ e.cid ∈ (l.foldl (pingStep now) acc).2) := by
  induction l with
  | nil =>
    intro acc w e hmem
    exact absurd hmem (List.not_mem_nil _)
  | cons kv tl ih =>
    intro acc w e hmem hnodup hlook
    simp only [List.map_cons, List.nodup_cons] at hnodup
    rcases List.mem_cons.mp hmem with heq | hmemtl
    · cases heq
      rw [List.foldl_cons]
      constructor
      · intro htime
        have hstep : pingStep now acc (w, e) = (removeConnection acc.1 w now, acc.2) := by
          unfold pingStep
          rw [if_pos htime]
        rw [hstep]
        constructor
        · rw [foldl_pingStep_lookup_notmem now tl w _ hnodup.1]
          exact alookup_removeConnection_self acc.1 w now
        · exact foldl_pingStep_closed_mono now tl _ _
            (cid_closed_removeConnection acc.1 w now e hlook)
      · intro htime
        have hstep : pingStep now acc (w, e) = (acc.1, acc.2 ++ [e.cid]) := by
          unfold pingStep
          rw [if_neg htime]
        rw [hstep]
        constructor
        · rw [foldl_pingStep_lookup_notmem now tl w _ hnodup.1]
          exact hlook
        · exact foldl_pingStep_pings_mono now tl _ _ (by simp)
    · have hk_ne_w : kv.1 ≠ w :=
        fun hkw => hnodup.1 (hkw ▸ List.mem_map.mpr ⟨(w, e), hmemtl, rfl⟩)
      rw [List.foldl_cons]
      have hlook' : alookup (pingStep now acc kv).1.connections w = some e := by
        rw [pingStep_lookup_ne now acc kv w hk_ne_w]
        exact hlook
      exact ih (pingStep now acc kv) w e hmemtl hnodup.2 hlook'

theorem alookup_map_refreshPing (l : List (String × ConnEntry)) (agentID : String)
    (now : Int) (e : ConnEntry) (h : alookup l agentID = some e) :
    alookup (l.map (fun kv =>
        if kv.1 = agentID then (kv.1, { kv.2 with lastPing := now }) else kv)) agentID
      = some { e with lastPing := now } := by
  induction l with
  | nil => simp [alookup] at h
  | cons kv tl ih =>
    by_cases hk : kv.1 = agentID
    · have he : kv.2 = e := by simpa [alookup, hk] using h
      simp [alookup, hk, he]
    · have h' : alookup tl agentID = some e := by simpa [alookup, hk] using h
      simp only [List.map_cons, hk, if_false]
      simp only [alookup, hk, if_false]
      exact ih h'

/-! Section: Claim theorems -/

/-- C2 (amended).  For every message whose kind is a byte and whose
payload is at most 16 MiB, reading back the encoded frame yields exactly
the original message (and leaves trailing bytes untouched); for a payload
above 16 MiB the DECODER rejects with `payloadTooLarge` — but the encoder
does not reject: `Message.Encode` is total and always emits the complete
header-plus-payload frame. -/
theorem C2_roundtrip_decoder_rejects_encoder_total :
    (∀ (m : Message) (rest : List Nat), m.type < 256 → m.payload.length ≤ MaxPayloadSize →
      ReaderRead (m.Encode ++ rest) = (.ok m, rest))
    ∧ (∀ (m : Message) (rest : List Nat), m.payload.length > MaxPayloadSize →
      m.payload.length < 2 ^ 32 → (ReaderRead (m.Encode ++ rest)).1 = .error .payloadTooLarge)
    ∧ (∀ m : Message, m.Encode.length = HeaderSize + m.payload.length) :=
  ⟨readerRead_encode, readerRead_encode_oversized, encode_length⟩

/-- C2 witness: a concrete round trip, and a concrete oversized
payload the decoder rejects. -/
theorem C2_roundtrip_decoder_rejects_encoder_total_witness :
    ReaderRead (Message.Encode ⟨TypePong, [123]⟩ ++ [9, 9]) = (.ok ⟨TypePong, [123]⟩, [9, 9])
    ∧ (ReaderRead (Message.Encode ⟨TypePong, List.replicate (MaxPayloadSize + 1) 0⟩ ++ [])).1
        = .error .payloadTooLarge :=
  ⟨C2_roundtrip_decoder_rejects_encoder_total.1 ⟨TypePong, [123]⟩ [9, 9]
      (by norm_num [TypePong]) (by norm_num [MaxPayloadSize]),
    C2_roundtrip_decoder_rejects_encoder_total.2.1
      ⟨TypePong, List.replicate (MaxPayloadSize + 1) 0⟩ []
      (replicate_oversized_gt MaxPayloadSize)
      (replicate_oversized_lt MaxPayloadSize (by norm_num [MaxPayloadSize]))⟩

set_option maxRecDepth 4000 in
/-- C2 counterexample to the claim as stated: the claim demands that
for a payload larger than 16 MiB "the encoder rejects" as well, but
`Message.Encode` has no size check: on a payload of 16 MiB + 1 bytes it
emits the complete frame (all `8 + |p|` bytes); only the reading side
rejects the frame. -/
theorem C2_claim_counterexample :
    (Message.Encode ⟨TypeMetrics, List.replicate (MaxPayloadSize + 1) 0⟩).length
        = HeaderSize + (MaxPayloadSize + 1)
    ∧ (ReaderRead (Message.Encode ⟨TypeMetrics, List.replicate (MaxPayloadSize + 1) 0⟩)).1
        = .error .payloadTooLarge := by
  constructor
  · exact encode_replicate_length TypeMetrics (MaxPayloadSize + 1)
  · rw [← List.append_nil (Message.Encode ⟨TypeMetrics, List.replicate (MaxPayloadSize + 1) 0⟩)]
    exact readerRead_encode_oversized _ _ (replicate_oversized_gt MaxPayloadSize)
      (replicate_oversized_lt MaxPayloadSize (by norm_num [MaxPayloadSize]))

/-- C8.  `DecodeHeader` fails with `invalidHeader` on fewer than 8
header bytes, `invalidMagic` when bytes 0–1 are not 0x55 0x46,
`invalidVersion` when byte 2 ≠ 0x01, and `payloadTooLarge` when the
big-endian length field exceeds 16 MiB; and on every such reader-side
failure `ReaderRead` returns the error having consumed only the 8 header
bytes, leaving all payload bytes unread. -/
theorem C8_header_rejection_no_payload_consumed :
    (∀ header : List Nat, header.length < HeaderSize →
        DecodeHeader header = .error .invalidHeader)
    ∧ (∀ (b0 b1 b2 b3 b4 b5 b6 b7 : Nat) (rest : List Nat),
        ¬(b0 = MagicByte1 ∧ b1 = MagicByte2) →
        DecodeHeader (b0 :: b1 :: b2 :: b3 :: b4 :: b5 :: b6 :: b7 :: rest)
          = .error .invalidMagic)
    ∧ (∀ (b2 b3 b4 b5 b6 b7 : Nat) (rest : List Nat), b2 ≠ ProtoVersion →
        DecodeHeader (MagicByte1 :: MagicByte2 :: b2 :: b3 :: b4 :: b5 :: b6 :: b7 :: rest)
          = .error .invalidVersion)
    ∧ (∀ (b3 b4 b5 b6 b7 : Nat) (rest : List Nat), be32decode b4 b5 b6 b7 > MaxPayloadSize →
        DecodeHeader
            (MagicByte1 :: MagicByte2 :: ProtoVersion :: b3 :: b4 :: b5 :: b6 :: b7 :: rest)
          = .error .payloadTooLarge)
    ∧ (∀ (header payload : List Nat) (e : ProtoErr), header.length = HeaderSize →
        DecodeHeader header = .error e → ReaderRead (header ++ payload) = (.error e, payload)) :=
  ⟨decodeHeader_short, decodeHeader_badMagic, decodeHeader_badVersion, decodeHeader_tooLarge,
    readerRead_header_error⟩

/-- C8 witness: each rejection at a concrete header, and the reader
leaving a concrete payload unconsumed. -/
theorem C8_header_rejection_no_payload_consumed_witness :
    DecodeHeader [85, 70, 1] = .error .invalidHeader
    ∧ DecodeHeader [0, 70, 1, 0, 0, 0, 0, 0] = .error .invalidMagic
    ∧ DecodeHeader [85, 70, 2, 0, 0, 0, 0, 0] = .error .invalidVersion
    ∧ DecodeHeader [85, 70, 1, 16, 255, 255, 255, 255] = .error .payloadTooLarge
    ∧ ReaderRead ([85, 70, 2, 0, 0, 0, 0, 0] ++ [42, 43]) = (.error .invalidVersion, [42, 43]) :=
  ⟨C8_header_rejection_no_payload_consumed.1 [85, 70, 1] (by decide),
    C8_header_rejection_no_payload_consumed.2.1 0 70 1 0 0 0 0 0 [] (by decide),
    C8_header_rejection_no_payload_consumed.2.2.1 2 0 0 0 0 0 [] (by decide),
    C8_header_rejection_no_payload_consumed.2.2.2.1 16 255 255 255 255 [] (by decide),
    C8_header_rejection_no_payload_consumed.2.2.2.2 [85, 70, 2, 0, 0, 0, 0, 0] [42, 43]
      .invalidVersion (by decide) (by rfl)⟩

/-- C1 (failing trace).  Sessions 1 and 2 both authenticate as worker
"W".  `addConnection` correctly closes and displaces session 1, and right
after the insertion the registry maps "W" to session 2 with session 1
closed.  But when the displaced session's `handleConnection` goroutine
exits, its deferred `removeConnection("W")` — keyed by worker id only,
with no identity check — closes session 2 and deletes the registry entry:
after the displaced session's own cleanup the registry has NO session for
"W" and the newer session is closed, contradicting the claim (and spec
property 6) that exactly the newer session remains registered. -/
theorem C1_displaced_cleanup_evicts_new_session :
    alookup (addConnection (addConnection ⟨[], [], emptyStore⟩ "W" ⟨1, "prod", 0⟩)
        "W" ⟨2, "prod", 5⟩).connections "W" = some ⟨2, "prod", 5⟩
    ∧ (addConnection (addConnection ⟨[], [], emptyStore⟩ "W" ⟨1, "prod", 0⟩)
        "W" ⟨2, "prod", 5⟩).closed = [1]
    ∧ alookup (removeConnection (addConnection (addConnection ⟨[], [], emptyStore⟩ "W"
        ⟨1, "prod", 0⟩) "W" ⟨2, "prod", 5⟩) "W" 6).connections "W" = none
    ∧ (removeConnection (addConnection (addConnection ⟨[], [], emptyStore⟩ "W"
        ⟨1, "prod", 0⟩) "W" ⟨2, "prod", 5⟩) "W" 6).closed = [2, 1] :=
  ⟨rfl, rfl, rfl, rfl⟩

/-- C6 (amended).  On COMMAND_START for a known deployment the
coordinator marks it Running — and nothing else: the payload's
`started_at` is ignored and the store update never writes `started_at`,
so the row keeps the start time recorded when the deployment was created.
Unknown ids leave the store untouched. -/
theorem C6_command_start_marks_running :
    (∀ (parse : List Nat → Option CommandStartPayload) (st : Store) (payload : List Nat)
        (p : CommandStartPayload) (d : Deployment),
      MessageDecode parse payload zeroCommandStartPayload = some p →
      st.getDeployment p.commandID = some d →
      (handleCommandStart parse st payload).getDeployment p.commandID
        = some { d with status := .running })
    ∧ (∀ (parse : List Nat → Option CommandStartPayload) (st : Store) (payload : List Nat)
        (p : CommandStartPayload),
      MessageDecode parse payload zeroCommandStartPayload = some p →
      st.getDeployment p.commandID = none →
      handleCommandStart parse st payload = st) := by
  constructor
  · intro parse st payload p d hdec hfind
    simp only [handleCommandStart, hdec, hfind]
    exact getDeployment_updateDeployment st p.commandID d { d with status := .running } hfind rfl
  · intro parse st payload p hdec hfind
    simp only [handleCommandStart, hdec, hfind]

/-- C6 witness: a concrete COMMAND_START against a pending deployment. -/
theorem C6_command_start_marks_running_witness :
    (handleCommandStart (fun _ => some ⟨"D1", 200⟩)
        { emptyStore with deployments := [⟨"D1", .pending, 100, none, 0, ""⟩] }
        [1]).getDeployment "D1"
      = some { (⟨"D1", .pending, 100, none, 0, ""⟩ : Deployment) with status := .running }
    ∧ handleCommandStart (fun _ => some ⟨"DX", 200⟩)
        { emptyStore with deployments := [⟨"D1", .pending, 100, none, 0, ""⟩] } [1]
      = { emptyStore with deployments := [⟨"D1", .pending, 100, none, 0, ""⟩] } :=
  ⟨C6_command_start_marks_running.1 (fun _ => some ⟨"D1", 200⟩) _ [1] ⟨"D1", 200⟩
      ⟨"D1", .pending, 100, none, 0, ""⟩ rfl rfl,
    C6_command_start_marks_running.2 (fun _ => some ⟨"DX", 200⟩) _ [1] ⟨"DX", 200⟩ rfl rfl⟩

/-- C6 counterexample to the claim as stated: the claim says the
handler "records its start time", but a COMMAND_START carrying
`started_at = 200` for a deployment created with start time 100 leaves
the stored start time at 100 — the handler reads only `command_id`, and
`UpdateDeployment`'s SQL has no `started_at` column in its SET list. -/
theorem C6_claim_counterexample :
    (handleCommandStart (fun _ => some ⟨"D1", 200⟩)
        { emptyStore with deployments := [⟨"D1", .pending, 100, none, 0, ""⟩] }
        [1]).getDeployment "D1"
      = some ⟨"D1", .running, 100, none, 0, ""⟩ := rfl

/-- C3.  COMMAND_DONE for a known deployment sets its status to
Success exactly when the payload status is "success" (Failed otherwise),
records the end time, the duration and the output, and — when the output
is non-empty — appends it as one final log line on stdout for success and
stderr for failure.  COMMAND_DONE for an unknown `command_id` leaves the
store untouched (no deployment record is synthesized). -/
theorem C3_command_done_resolution :
    (∀ (parse : List Nat → Option CommandDonePayload) (st : Store) (now : Int)
        (payload : List Nat) (p : CommandDonePayload) (d : Deployment),
      MessageDecode parse payload zeroCommandDonePayload = some p →
      st.getDeployment p.commandID = some d →
      ((handleCommandDone parse st now payload).getDeployment p.commandID
        = some { d with
            status := if p.status = "success" then DeployStatus.success else .failed
            endedAt := some now
            duration := now - d.startedAt
            output := p.output })
      ∧ (handleCommandDone parse st now payload).deploymentLogs
        = (if p.output ≠ "" then
            st.deploymentLogs
              ++ [⟨p.commandID, p.output,
                  if (if p.status = "success" then DeployStatus.success else .failed) = .failed
                    then "stderr" else "stdout", now⟩]
          else st.deploymentLogs))
    ∧ (∀ (parse : List Nat → Option CommandDonePayload) (st : Store) (now : Int)
        (payload : List Nat) (p : CommandDonePayload),
      MessageDecode parse payload zeroCommandDonePayload = some p →
      st.getDeployment p.commandID = none →
      handleCommandDone parse st now payload = st) := by
  constructor
  · intro parse st now payload p d hdec hfind
    simp only [handleCommandDone, hdec, hfind]
    by_cases hout : p.output = ""
    · rw [if_neg (by simp [hout])]
      refine ⟨?_, by simp [hout, Store.updateDeployment]⟩
      exact getDeployment_updateDeployment st p.commandID d _ hfind rfl
    · rw [if_pos hout]
      refine ⟨?_, by simp [hout, Store.addDeploymentLog, Store.updateDeployment]⟩
      exact getDeployment_updateDeployment st p.commandID d _ hfind rfl
  · intro parse st now payload p hdec hfind
    simp only [handleCommandDone, hdec, hfind]

/-- C3 witness: a successful COMMAND_DONE with non-empty output, and
an unknown-id COMMAND_DONE that is ignored. -/
theorem C3_command_done_resolution_witness :
    ((handleCommandDone (fun _ => some ⟨"D1", "success", 0, 0, "done"⟩)
        { emptyStore with deployments := [⟨"D1", .running, 100, none, 0, ""⟩] }
        250 [1]).getDeployment "D1"
      = some ⟨"D1", .success, 100, some 250, 150, "done"⟩)
    ∧ ((handleCommandDone (fun _ => some ⟨"D1", "success", 0, 0, "done"⟩)
        { emptyStore with deployments := [⟨"D1", .running, 100, none, 0, ""⟩] }
        250 [1]).deploymentLogs = [⟨"D1", "done", "stdout", 250⟩])
    ∧ handleCommandDone (fun _ => some ⟨"DX", "failed", 1, 0, "boom"⟩)
        { emptyStore with deployments := [⟨"D1", .running, 100, none, 0, ""⟩] } 250 [1]
      = { emptyStore with deployments := [⟨"D1", .running, 100, none, 0, ""⟩] } := by
  have h := C3_command_done_resolution.1 (fun _ => some ⟨"D1", "success", 0, 0, "done"⟩)
    { emptyStore with deployments := [⟨"D1", .running, 100, none, 0, ""⟩] }
    250 [1] ⟨"D1", "success", 0, 0, "done"⟩ ⟨"D1", .running, 100, none, 0, ""⟩ rfl rfl
  have h2 := C3_command_done_resolution.2 (fun _ => some ⟨"DX", "failed", 1, 0, "boom"⟩)
    { emptyStore with deployments := [⟨"D1", .running, 100, none, 0, ""⟩] }
    250 [1] ⟨"DX", "failed", 1, 0, "boom"⟩ rfl rfl
  exact ⟨h.1, h.2, h2⟩

/-- C7 (amended).  Whenever `removeConnection` deregisters a live
session, the worker is marked offline, the registry entry is erased, the
session's connection is closed — and an `agent_offline` alert is created
UNCONDITIONALLY: `CheckOffline` always returns an alert and `CreateAlert`
is a plain insert, with no deduplication against unresolved alerts and no
disconnect hook (the server has none). -/
theorem C7_deregistration_side_effects :
    ∀ (st : ServerState) (agentID : String) (now : Int) (c : ConnEntry),
      alookup st.connections agentID = some c →
      removeConnection st agentID now =
        { connections := aerase st.connections agentID
          closed := c.cid :: st.closed
          store := (st.store.updateAgentStatus agentID .offline now).createAlert
            (newAlert agentID c.agentName "agent_offline"
              ("Agent " ++ c.agentName ++ " is offline") .critical) } := by
  intro st agentID now c h
  simp only [removeConnection, h, CheckOffline]

/-- C7 witness: deregistering a concrete session. -/
theorem C7_deregistration_side_effects_witness :
    removeConnection ⟨[("W", ⟨7, "prod", 0⟩)], [], emptyStore⟩ "W" 9 =
      { connections := []
        closed := [7]
        store := (emptyStore.updateAgentStatus "W" .offline 9).createAlert
          (newAlert "W" "prod" "agent_offline" "Agent prod is offline" .critical) } :=
  C7_deregistration_side_effects ⟨[("W", ⟨7, "prod", 0⟩)], [], emptyStore⟩ "W" 9
    ⟨7, "prod", 0⟩ rfl

/-- C7 counterexample to the claim as stated: the claim suppresses the
alert when an unresolved `agent_offline` alert for the worker already
exists, but deregistering "W" while exactly such an alert is in the store
leaves TWO unresolved `agent_offline` alerts for "W". -/
theorem C7_claim_counterexample :
    ((removeConnection
        { connections := [("W", ⟨1, "prod", 0⟩)]
          closed := []
          store := { emptyStore with
            alerts := [newAlert "W" "prod" "agent_offline" "Agent prod is offline" .critical] } }
        "W" 5).store.alerts.filter
      (fun a => a.agentID == "W" && a.type == "agent_offline" && !a.resolved)).length = 2 := rfl

/-- C4 (amended).  On every coordinator-side authentication failure
the session is never added to the registry under any worker id, and the
failure is reported back to the worker before closing with the frame the
code actually sends: `ERROR 401` when the first frame's kind is not AUTH,
`ERROR 400` when the auth payload does not decode, and
`AUTH_FAIL{reason="invalid token"}` when the token is unknown (only the
unknown-token case uses AUTH_FAIL). -/
theorem C4_auth_failure_reporting (parseAuth : List Nat → Option AuthPayload)
    (cfgAgents : List AgentConfig) (st : ServerState) (cid : Nat) (host : String)
    (now : Int) (recv : Except ProtoErr Message)
    (hne : ∀ id name, (authenticate parseAuth cfgAgents st.store host now recv).1
      ≠ .authOk id name) :
    (handleConnectionAuth parseAuth cfgAgents st cid host now recv).1.connections
      = st.connections
    ∧ (authenticate parseAuth cfgAgents st.store host now recv).2.2
      = authFailureReport (authenticate parseAuth cfgAgents st.store host now recv).1 := by
  cases recv with
  | error e => exact ⟨rfl, rfl⟩
  | ok msg =>
    by_cases ht : msg.type = TypeAuth
    · cases hmd : MessageDecode parseAuth msg.payload zeroAuthPayload with
      | none =>
        have hav : authenticate parseAuth cfgAgents st.store host now (.ok msg)
            = (.failDecode, st.store, [.errorFrame 400 "invalid auth payload"]) := by
          simp [authenticate, ht, hmd]
        exact ⟨by simp [handleConnectionAuth, hav], by rw [hav]; rfl⟩
      | some auth =>
        cases hga : GetAgentByToken cfgAgents auth.token with
        | none =>
          have hav : authenticate parseAuth cfgAgents st.store host now (.ok msg)
              = (.failToken, st.store, [.authFail "invalid token"]) := by
            simp [authenticate, ht, hmd, hga]
          exact ⟨by simp [handleConnectionAuth, hav], by rw [hav]; rfl⟩
        | some cfg =>
          exfalso
          apply hne cfg.id cfg.name
          simp [authenticate, ht, hmd, hga]
    · have hav : authenticate parseAuth cfgAgents st.store host now (.ok msg)
          = (.failNotAuth, st.store, [.errorFrame 401 "expected AUTH message"]) := by
        simp [authenticate, ht]
      exact ⟨by simp [handleConnectionAuth, hav], by rw [hav]; rfl⟩

/-- C4 witness: a first frame of kind PING (not AUTH) against a
coordinator with one configured worker. -/
theorem C4_auth_failure_reporting_witness :
    (handleConnectionAuth (fun _ => none) [⟨"W1", "prod", "T"⟩]
        ⟨[], [], emptyStore⟩ 3 "10.0.0.1" 0 (.ok ⟨TypePing, []⟩)).1.connections = []
    ∧ (authenticate (fun _ => none) [⟨"W1", "prod", "T"⟩] emptyStore "10.0.0.1" 0
        (.ok ⟨TypePing, []⟩)).2.2
      = authFailureReport (authenticate (fun _ => none) [⟨"W1", "prod", "T"⟩] emptyStore
          "10.0.0.1" 0 (.ok ⟨TypePing, []⟩)).1 :=
  C4_auth_failure_reporting (fun _ => none) [⟨"W1", "prod", "T"⟩]
    ⟨[], [], emptyStore⟩ 3 "10.0.0.1" 0 (.ok ⟨TypePing, []⟩)
    (fun _ _ h => nomatch h)

/-- C4 counterexample to the claim as stated: a first frame whose kind
is PING (≠ AUTH) is answered with `ERROR 401`, not with `AUTH_FAIL` — no
frame in the reply is an AUTH_FAIL. -/
theorem C4_claim_counterexample :
    (authenticate (fun _ => none) [⟨"W1", "prod", "T"⟩] emptyStore "10.0.0.1" 0
        (.ok ⟨TypePing, []⟩)).2.2 = [.errorFrame 401 "expected AUTH message"]
    ∧ ((authenticate (fun _ => none) [⟨"W1", "prod", "T"⟩] emptyStore "10.0.0.1" 0
        (.ok ⟨TypePing, []⟩)).2.2.all fun f => !f.isAuthFail) = true :=
  ⟨rfl, rfl⟩

/-- C10.  `Message.Decode` on an empty payload succeeds and leaves the
target value unmodified, for every payload schema; consequently a
zero-length METRICS payload is accepted by the coordinator and processed
as the zero value of its payload struct — the agent's stored metrics are
updated to the zero metrics and METRICS_ACK is sent — rather than
rejected as malformed. -/
theorem C10_empty_payload_accepted :
    (∀ (α : Type) (parse : List Nat → Option α) (v : α), MessageDecode parse [] v = some v)
    ∧ (∀ (parse : List Nat → Option MetricsPayload) (st : Store) (agentID agentName : String)
        (now : Int),
      handleMetrics parse st agentID agentName now []
        = (st.updateAgentMetrics agentID (systemToAgentMetrics zeroSystemMetrics) now,
            [.metricsAck])) := by
  refine ⟨fun α parse v => rfl, fun parse st agentID agentName now => ?_⟩
  rfl

/-- C5.  The liveness ticker fires `pingAll` every `PingInterval`
(30 s); on a tick, every registered session whose last-liveness timestamp
is more than `PongTimeout` (45 s) old is deregistered and closed (its
connection id lands in the closed set and its registry entry is gone),
and every other session is sent a PING; and `processMessage` refreshes a
session's last-liveness timestamp on receipt of any PONG. -/
theorem C5_liveness_tick :
    PingInterval = 30 ∧ PongTimeout = 45
    ∧ (∀ (st : ServerState) (now : Int) (w : String) (e : ConnEntry),
      (st.connections.map Prod.fst).Nodup → (w, e) ∈ st.connections →
      (now - e.lastPing > PongTimeout →
        alookup (pingAll st now).1.connections w = none
        ∧ e.cid ∈ (pingAll st now).1.closed)
      ∧ (¬(now - e.lastPing > PongTimeout) →
        alookup (pingAll st now).1.connections w = some e
        ∧ e.cid ∈ (pingAll st now).2))
    ∧ (∀ (p : ParseOracles) (st : ServerState) (agentID agentName : String) (now : Int)
        (payload : List Nat),
      processMessage p st agentID agentName now ⟨TypePong, payload⟩
        = (updatePing st agentID now, []))
    ∧ (∀ (st : ServerState) (agentID : String) (now : Int) (e : ConnEntry),
      alookup st.connections agentID = some e →
      alookup (updatePing st agentID now).connections agentID
        = some { e with lastPing := now }) := by
  refine ⟨rfl, rfl, ?_, fun p st agentID agentName now payload => rfl, ?_⟩
  · intro st now w e hnodup hmem
    exact foldl_pingStep_mem_spec now st.connections (st, []) w e hmem hnodup
      (alookup_of_mem_nodup st.connections w e hmem hnodup)
  · intro st agentID now e h
    exact alookup_map_refreshPing st.connections agentID now e h

/-- C5 witness: on a tick at time 50, the session whose last PONG was
at time 0 is deregistered and closed, the one at time 40 is pinged; a
PONG refreshes the timestamp. -/
theorem C5_liveness_tick_witness :
    (alookup (pingAll ⟨[("A", ⟨1, "a", 0⟩), ("B", ⟨2, "b", 40⟩)], [], emptyStore⟩
        50).1.connections "A" = none
      ∧ 1 ∈ (pingAll ⟨[("A", ⟨1, "a", 0⟩), ("B", ⟨2, "b", 40⟩)], [], emptyStore⟩
        50).1.closed)
    ∧ (alookup (pingAll ⟨[("A", ⟨1, "a", 0⟩), ("B", ⟨2, "b", 40⟩)], [], emptyStore⟩
        50).1.connections "B" = some ⟨2, "b", 40⟩
      ∧ 2 ∈ (pingAll ⟨[("A", ⟨1, "a", 0⟩), ("B", ⟨2, "b", 40⟩)], [], emptyStore⟩ 50).2)
    ∧ alookup (updatePing ⟨[("B", ⟨2, "b", 40⟩)], [], emptyStore⟩ "B" 99).connections "B"
      = some ⟨2, "b", 99⟩ :=
  ⟨(C5_liveness_tick.2.2.1 ⟨[("A", ⟨1, "a", 0⟩), ("B", ⟨2, "b", 40⟩)], [], emptyStore⟩
      50 "A" ⟨1, "a", 0⟩ (by decide) (by decide)).1 (by decide),
    (C5_liveness_tick.2.2.1 ⟨[("A", ⟨1, "a", 0⟩), ("B", ⟨2, "b", 40⟩)], [], emptyStore⟩
      50 "B" ⟨2, "b", 40⟩ (by decide) (by decide)).2 (by decide),
    C5_liveness_tick.2.2.2.2 ⟨[("B", ⟨2, "b", 40⟩)], [], emptyStore⟩ "B" 99
      ⟨2, "b", 40⟩ rfl⟩

/-- C9.  The worker's stream-cancel table keeps at most one handle
per container id: handling CONTAINER_LOGS_REQUEST cancels any prior
handle for the container before installing the new one (keys stay
nodup and the new handle is the one registered), and on worker
disconnect/stop every handle in the table is invoked and the table is
left empty. -/
theorem C9_stream_cancel_table :
    (∀ (d : DaemonState) (c : String) (tok : Nat),
      (d.streamCancels.map Prod.fst).Nodup →
      ((handleContainerLogsRequest d c tok).streamCancels.map Prod.fst).Nodup
      ∧ alookup (handleContainerLogsRequest d c tok).streamCancels c = some tok)
    ∧ (∀ (d : DaemonState) (c : String) (oldTok newTok : Nat),
      alookup d.streamCancels c = some oldTok →
      oldTok ∈ (handleContainerLogsRequest d c newTok).cancelled)
    ∧ (∀ d : DaemonState, (daemonDisconnect d).streamCancels = [])
    ∧ (∀ (d : DaemonState) (c : String) (tok : Nat), (c, tok) ∈ d.streamCancels →
      tok ∈ (daemonDisconnect d).cancelled) := by
  refine ⟨?_, ?_, fun d => rfl, ?_⟩
  · intro d c tok hnodup
    constructor
    · show ((aset (stopContainerStream d c).streamCancels c tok).map Prod.fst).Nodup
      apply keys_aset_nodup
      show ((stopContainerStream d c).streamCancels.map Prod.fst).Nodup
      unfold stopContainerStream
      cases h : alookup d.streamCancels c with
      | some t => exact keys_aerase_nodup d.streamCancels c hnodup
      | none => exact hnodup
    · show alookup (aset (stopContainerStream d c).streamCancels c tok) c = some tok
      exact alookup_aset_self _ c tok
  · intro d c oldTok newTok h
    show oldTok ∈ (stopContainerStream d c).cancelled
    unfold stopContainerStream
    rw [h]
    exact List.mem_cons_self _ _
  · intro d c tok hmem
    unfold daemonDisconnect
    apply List.mem_append_left
    rw [List.mem_reverse]
    exact List.mem_map.mpr ⟨(c, tok), hmem, rfl⟩

/-- C9 witness: a second request for container "C1" cancels handle 5
and installs handle 9; disconnect drains the table. -/
theorem C9_stream_cancel_table_witness :
    (((handleContainerLogsRequest ⟨[("C1", 5)], []⟩ "C1" 9).streamCancels.map Prod.fst).Nodup
      ∧ alookup (handleContainerLogsRequest ⟨[("C1", 5)], []⟩ "C1" 9).streamCancels "C1"
        = some 9)
    ∧ 5 ∈ (handleContainerLogsRequest ⟨[("C1", 5)], []⟩ "C1" 9).cancelled
    ∧ (daemonDisconnect ⟨[("C1", 5)], []⟩).streamCancels = []
    ∧ 5 ∈ (daemonDisconnect ⟨[("C1", 5)], []⟩).cancelled :=
  ⟨C9_stream_cancel_table.1 ⟨[("C1", 5)], []⟩ "C1" 9 (by decide),
    C9_stream_cancel_table.2.1 ⟨[("C1", 5)], []⟩ "C1" 5 9 rfl,
    C9_stream_cancel_table.2.2.1 ⟨[("C1", 5)], []⟩,
    C9_stream_cancel_table.2.2.2 ⟨[("C1", 5)], []⟩ "C1" 5 (by decide)⟩

end Uruflow

